import Mathlib

/-!
# Product-Photo-Fusion: verification of the request/response orchestration layer

Shallow embedding of the two source files of the repository:

* `src/services/geminiService.ts` — the service layer: `generatePromptSuggestions`
  and `generateFusedImage`, with the credential check, request assembly and
  response interpretation.
* `src/App.tsx` — the orchestration layer: `handleGenerate` and the
  suggestion-fetching `useEffect`.

JavaScript strings are Lean `String`s, optional/undefined fields are `Option`,
thrown exceptions are the `Except.error` side of `Except String _` carrying the
thrown message, and the external service together with the platform JSON parser
are oracle parameters.  Observable effects (file encoding, network dispatch)
are recorded in an event trace so that "before any network attempt" claims can
be stated.
-/

namespace PPF

/-! ## JavaScript value model (for `JSON.parse` results) -/

/-- A parsed JSON value, the possible results of `JSON.parse`. -/
inductive Json where
  | null
  | bool (b : Bool)
  | num (n : Int)
  | str (s : String)
  | arr (elems : List Json)
  | obj (fields : List (String × Json))

/-- JavaScript truthiness of a parsed JSON value (used by `x || []`). -/
def jsTruthy : Json → Bool
  | .null => false
  | .bool b => b
  | .num n => n != 0
  | .str s => s != ""
  | .arr _ => true
  | .obj _ => true

/-! ## `@google/genai` response model

Only the fields the source reads: `response.text`, `response.promptFeedback
?.blockReason`, `response.candidates?.[0]?.finishReason`, and
`response.candidates?.[0]?.content?.parts`, each optional exactly where the
SDK declares it optional. `BlockedReason` is the SDK enum; every enum value
serialises to a non-empty string, so the JavaScript truthiness test
`promptFeedback?.blockReason` holds exactly when the field is present. -/

/-- SDK enum for `promptFeedback.blockReason`. -/
inductive BlockedReason where
  | BLOCKED_REASON_UNSPECIFIED
  | SAFETY
  | BLOCKLIST
  | PROHIBITED_CONTENT
  | OTHER
deriving DecidableEq, Repr

/-- An inline binary data segment: base64 payload plus declared media type. -/
structure InlineData where
  data : String
  mimeType : String
deriving DecidableEq, Repr

/-- One content segment of a candidate: optionally inline data, optionally text. -/
structure Part where
  inlineData : Option InlineData := none
  text : Option String := none
deriving DecidableEq, Repr

/-- A candidate content object; its `parts` list is optional in the SDK. -/
structure Content where
  parts : Option (List Part) := none
deriving DecidableEq, Repr

/-- One response candidate. -/
structure Candidate where
  content : Option Content := none
  finishReason : Option String := none
deriving DecidableEq, Repr

/-- The `promptFeedback` object of a response. -/
structure PromptFeedback where
  blockReason : Option BlockedReason := none
deriving DecidableEq, Repr

/-- The service response, restricted to the fields the source reads. -/
structure GenerateContentResponse where
  promptFeedback : Option PromptFeedback := none
  candidates : Option (List Candidate) := none
  text : Option String := none
deriving DecidableEq, Repr

/-! ## Request model -/

/-- SDK `Modality` values used by the fusion call. -/
inductive Modality where
  | IMAGE
  | TEXT
deriving DecidableEq, Repr

/-- One request part: an inline image (base64 data + media type) or a text part. -/
inductive ReqPart where
  | inlineData (data : String) (mimeType : String)
  | text (s : String)
deriving DecidableEq, Repr

/-- Arguments of `ai.models.generateContent`, restricted to what the source
sets: model identifier, the content parts, and the response-shape config.
(The suggestion call additionally passes a fixed `responseSchema` object,
which no claim depends on; its presence is reflected by
`responseMimeType = some "application/json"`.) -/
structure GenerateContentArgs where
  model : String
  parts : List ReqPart
  responseMimeType : Option String := none
  responseModalities : List Modality := []
deriving DecidableEq, Repr

/-! ## Files and environment -/

/-- A user-selected browser `File`, abstracted to what the service reads of it:
the base64 payload that `fileToBase64` produces (the data-URL body after the
comma) and the declared media type `file.type`. -/
structure JSFile where
  base64Data : String
  type : String
deriving DecidableEq, Repr

/-- `fileToBase64` (geminiService.ts lines 3-10): reads the file as a data URL
and returns the part after the comma, i.e. the base64 payload. -/
def fileToBase64 (file : JSFile) : String :=
  file.base64Data

/-- The process environment as the service sees it: `process.env.API_KEY`. -/
structure Env where
  apiKey : Option String := none
deriving DecidableEq, Repr

/-- JavaScript truthiness of `process.env.API_KEY`: present and non-empty.
The source guards each call with `if (!process.env.API_KEY) throw ...`. -/
def envApiKeyTruthy (env : Env) : Bool :=
  match env.apiKey with
  | none => false
  | some s => s != ""

/-- Observable side effects of a service call, in order of occurrence. -/
inductive ServiceEvent where
  | encodeFile (file : JSFile)
  | networkCall (args : GenerateContentArgs)
deriving DecidableEq, Repr

/-! ## Suggestion call (geminiService.ts lines 12-50) -/

/-- The fixed suggestion instruction (geminiService.ts line 22). -/
def suggestionPromptText : String :=
  "Analyze the following two images. Image 1 contains a character, and Image 2 contains a product. Based on your analysis, generate exactly 4 short, creative, and actionable prompt suggestions for how to combine them. The suggestions should be phrased as commands (e.g., \"Make the character wear the [product]\"). Return the suggestions as a JSON object with a single key \"suggestions\" containing an array of strings."

/-- The suggestion request payload (geminiService.ts lines 24-46). -/
def buildSuggestionRequest (characterImageFile productImageFile : JSFile) :
    GenerateContentArgs :=
  { model := "gemini-2.5-flash"
    parts := [ .inlineData (fileToBase64 characterImageFile) characterImageFile.type
             , .inlineData (fileToBase64 productImageFile) productImageFile.type
             , .text suggestionPromptText ]
    responseMimeType := some "application/json"
    responseModalities := [] }

/-- Interpretation of the suggestion response body (geminiService.ts lines
48-49): `const jsonResponse = JSON.parse(response.text); return
jsonResponse.suggestions || [];`.  The argument is the outcome of
`JSON.parse` on the body: `none` when the body is not valid JSON, in which
case `JSON.parse` throws and the exception propagates out of
`generatePromptSuggestions`; property access on `null` also throws; property
access on any other non-object value yields `undefined`, and `undefined ||
[]` is the empty array. -/
def interpretSuggestions (parsed : Option Json) : Except String Json :=
  match parsed with
  | none => .error "SyntaxError: Unexpected token in JSON"
  | some .null => .error "TypeError: Cannot read properties of null"
  | some (.obj fields) =>
    match fields.lookup "suggestions" with
    | some v => if jsTruthy v then .ok v else .ok (.arr [])
    | none => .ok (.arr [])
  | some _ => .ok (.arr [])

/-- `generatePromptSuggestions` (geminiService.ts lines 12-50).  `service` is
the external generation service; `parse` is the platform JSON parser,
returning `none` when its input is not valid JSON.  When `response.text` is
`undefined`, `JSON.parse(undefined)` receives the string "undefined", which is
not valid JSON, so parsing fails.  Returns the result together with the trace
of observable effects. -/
def generatePromptSuggestions (env : Env)
    (characterImageFile productImageFile : JSFile)
    (service : GenerateContentArgs → GenerateContentResponse)
    (parse : String → Option Json) :
    Except String Json × List ServiceEvent :=
  if envApiKeyTruthy env then
    let args := buildSuggestionRequest characterImageFile productImageFile
    let response := service args
    let parsed : Option Json :=
      match response.text with
      | some body => parse body
      | none => none
    (interpretSuggestions parsed,
     [ .encodeFile characterImageFile
     , .encodeFile productImageFile
     , .networkCall args ])
  else
    (.error "API_KEY environment variable not set", [])

/-! ## Fusion call (geminiService.ts lines 53-122) -/

/-- The fixed default instruction (geminiService.ts line 63). -/
def defaultInstruction : String :=
  "Make the character from the first image interact with or use the product from the second image."

/-- JavaScript `String.prototype.trim`: strip leading and trailing
whitespace. -/
def jsTrim (s : String) : String :=
  ⟨(((s.data.dropWhile Char.isWhitespace).reverse.dropWhile Char.isWhitespace).reverse)⟩

/-- Effective instruction selection (geminiService.ts line 64):
`userPrompt && userPrompt.trim() !== '' ? userPrompt : defaultInstruction`. -/
def effectiveInstruction (userPrompt : String) : String :=
  if userPrompt ≠ "" ∧ jsTrim userPrompt ≠ "" then userPrompt else defaultInstruction

/-- The fusion prompt template (geminiService.ts lines 66-80) with the
effective instruction spliced into the Goal line.  Note rule 5 requires the
output to keep the character image\x27s dimensions and aspect ratio
unconditionally; the template has no aspect-ratio override branch. -/
def fusionPromptTemplate (userInstruction : String) : String :=
  "You are an expert image editor. Your task is to realistically merge a product into a character\x27s image.\n\n**Goal:** "
  ++ userInstruction ++
  "\n\n**Image 1 (Character Image):** This is the main subject and the base for the final image.\n**Image 2 (Product Image):** This contains the product to be integrated with the character.\n\n**Strict Rules:**\n1.  **Combine:** Generate a new image where the character from Image 1 is interacting with or wearing the product from Image 2, as described in the goal.\n2.  **Full Product Integration:** The *entire* product from Image 2 must be realistically integrated. **Do not just copy a logo, graphic, or texture from the product.** For example, if the goal is for the character to wear a t-shirt from Image 2, the final image must show the character wearing the *complete t-shirt* (including its color, shape, and fabric), not just the graphic from the t-shirt pasted onto their original clothing.\n3.  **High-Fidelity Detail Transfer:** All visual details from the product in Image 2 must be transferred. This includes all graphics, logos, text, patterns, and textures. Ensure the final representation is a faithful and complete reproduction of the product\x27s design.\n4.  **Preserve Style:** The final image\x27s artistic style, lighting, and overall aesthetic MUST exactly match the Character Image (Image 1).\n5.  **Preserve Dimensions:** The final image MUST have the same dimensions and aspect ratio as the Character Image (Image 1).\n6.  **No Additions:** Do not add any new elements, characters, or complex backgrounds. Only modify what is necessary to combine the character and product naturally.\n"

/-- The fusion request payload (geminiService.ts lines 83-107).  The function
`generateFusedImage` declares exactly three data parameters — two files and
`userPrompt` — so the request is determined by those alone. -/
def buildFusionRequest (characterImageFile productImageFile : JSFile)
    (userPrompt : String) : GenerateContentArgs :=
  { model := "gemini-2.5-flash-image"
    parts := [ .inlineData (fileToBase64 characterImageFile) characterImageFile.type
             , .inlineData (fileToBase64 productImageFile) productImageFile.type
             , .text (fusionPromptTemplate (effectiveInstruction userPrompt)) ]
    responseMimeType := none
    responseModalities := [Modality.IMAGE, Modality.TEXT] }

/-- `response.candidates?.[0]?.finishReason` (geminiService.ts line 109). -/
def firstFinishReason (r : GenerateContentResponse) : Option String :=
  (r.candidates.bind List.head?).bind Candidate.finishReason

/-- `response.promptFeedback?.blockReason` (geminiService.ts line 109). -/
def promptBlockReason (r : GenerateContentResponse) : Option BlockedReason :=
  r.promptFeedback.bind PromptFeedback.blockReason

/-- `response.candidates?.[0]?.content?.parts ?? []` (geminiService.ts line 113). -/
def fusionParts (r : GenerateContentResponse) : List Part :=
  ((((r.candidates.bind List.head?).bind Candidate.content).bind Content.parts).getD [])

/-- The part-scan loop (geminiService.ts lines 113-119): first part whose
`inlineData` is present wins. -/
def findInlineData : List Part → Option InlineData
  | [] => none
  | p :: ps =>
    match p.inlineData with
    | some d => some d
    | none => findInlineData ps

/-- Response interpretation of the fusion call (geminiService.ts lines
109-121): safety-block check first, then the part scan building the data URL,
else the no-image failure. -/
def interpretFusionResponse (r : GenerateContentResponse) : Except String String :=
  if (promptBlockReason r).isSome || (firstFinishReason r == some "SAFETY") then
    .error "SAFETY_POLICY_VIOLATION"
  else
    match findInlineData (fusionParts r) with
    | some d => .ok ("data:" ++ d.mimeType ++ ";base64," ++ d.data)
    | none => .error "No image was generated. The model may have refused the prompt."

/-- `generateFusedImage` (geminiService.ts lines 53-122): credential check,
then encode both files, build the request, dispatch, interpret.  Returns the
result together with the trace of observable effects. -/
def generateFusedImage (env : Env)
    (characterImageFile productImageFile : JSFile) (userPrompt : String)
    (service : GenerateContentArgs → GenerateContentResponse) :
    Except String String × List ServiceEvent :=
  if envApiKeyTruthy env then
    let args := buildFusionRequest characterImageFile productImageFile userPrompt
    let response := service args
    (interpretFusionResponse response,
     [ .encodeFile characterImageFile
     , .encodeFile productImageFile
     , .networkCall args ])
  else
    (.error "API_KEY environment variable not set", [])

/-! ## App orchestration layer (`src/App.tsx`) -/

/-- The `ErrorState` interface of App.tsx (lines 17-20). -/
structure ErrorState where
  title : String
  message : String
deriving DecidableEq, Repr

/-- The `ImageFile` value held in `characterImage` / `productImage` state:
the selected file plus its object-URL preview. -/
structure ImageFile where
  file : JSFile
  previewUrl : String
deriving DecidableEq, Repr

/-- The App component state touched by `handleGenerate` (App.tsx lines 71-84). -/
structure AppState where
  characterImage : Option ImageFile := none
  productImage : Option ImageFile := none
  prompt : String := ""
  generatedImage : Option String := none
  isLoading : Bool := false
  error : Option ErrorState := none
  outputAspectRatio : String := "original"
deriving DecidableEq, Repr

/-- The validation error set by `handleGenerate` when an image is missing
(App.tsx lines 115-118). -/
def missingImagesError : ErrorState :=
  { title := "Missing Images"
    message := "Please upload both a character and a product image before generating." }

/-- The synchronous head of `handleGenerate` (App.tsx lines 113-126), up to
the point where the service call is dispatched: if either image is missing it
sets the validation error and returns without any call; otherwise it clears
the error and previous result, enters the loading state, and dispatches the
fusion request.  The call site passes `outputAspectRatio` as a fourth
argument, but `generateFusedImage` declares only three parameters
(characterImageFile, productImageFile, userPrompt), so JavaScript drops the
extra argument and the dispatched request does not depend on the selected
aspect ratio. -/
def handleGenerateStart (s : AppState) : AppState × Option GenerateContentArgs :=
  match s.characterImage, s.productImage with
  | some c, some p =>
    ({ s with error := none, generatedImage := none, isLoading := true },
     some (buildFusionRequest c.file p.file s.prompt))
  | _, _ =>
    ({ s with error := some missingImagesError }, none)

/-! ## Suggestion-fetch concurrency model (App.tsx lines 81-110)

The `useEffect` with dependency array `[characterImage, productImage]` runs
after every commit that changes either image.  Its body, when both images are
present, synchronously sets `isSuggestionsLoading` to true, clears
`dynamicSuggestions`, and starts `generatePromptSuggestions` for the current
pair; when the promise settles, the continuation sets `dynamicSuggestions`
to the fetched list (on success) and sets `isSuggestionsLoading` to false.
The effect installs no cleanup and records no request identity, so nothing
discards the continuation of a fetch that has been superseded.

We model the suggestion-related state together with the multiset of in-flight
fetches (identified by the image pair they were started for), and an event
step relation: image-replacement events run the effect synchronously, and a
resolution event for any in-flight fetch applies its continuation.  The
scheduler (the order of resolution events) is the adversary. -/

/-- Suggestion-related App state plus in-flight fetches. -/
structure SuggestState where
  characterImage : Option ImageFile := none
  productImage : Option ImageFile := none
  dynamicSuggestions : List String := []
  isSuggestionsLoading : Bool := false
  pendingFetches : List (ImageFile × ImageFile) := []
deriving DecidableEq, Repr

/-- The effect body (App.tsx lines 93-110), run after an image state commit:
when both images are present, enter loading, clear suggestions, and start a
fetch for the current pair.  When either image is absent nothing happens. -/
def runSuggestionEffect (s : SuggestState) : SuggestState :=
  match s.characterImage, s.productImage with
  | some c, some p =>
    { s with isSuggestionsLoading := true
             dynamicSuggestions := []
             pendingFetches := s.pendingFetches ++ [(c, p)] }
  | _, _ => s

/-- Events of the suggestion subsystem: the user replaces an image (which
commits the state and runs the effect), or a pending fetch for some pair
settles — successfully with the suggestion list `oracle pair`, or with an
error (App.tsx lines 101-106: the catch logs, the finally clears loading). -/
inductive SuggestEvent where
  | setCharacter (img : ImageFile)
  | setProduct (img : ImageFile)
  | resolveFetch (pair : ImageFile × ImageFile)
  | rejectFetch (pair : ImageFile × ImageFile)
deriving DecidableEq, Repr

/-- One step of the suggestion subsystem.  `oracle` gives the suggestion list
the service returns for an image pair.  A resolution event for a pair with no
matching in-flight fetch is a no-op (the scheduler may only settle fetches
that were actually started). -/
def suggestStep (oracle : ImageFile × ImageFile → List String)
    (s : SuggestState) (e : SuggestEvent) : SuggestState :=
  match e with
  | .setCharacter img => runSuggestionEffect { s with characterImage := some img }
  | .setProduct img => runSuggestionEffect { s with productImage := some img }
  | .resolveFetch pair =>
    if pair ∈ s.pendingFetches then
      { s with pendingFetches := s.pendingFetches.erase pair
               dynamicSuggestions := oracle pair
               isSuggestionsLoading := false }
    else s
  | .rejectFetch pair =>
    if pair ∈ s.pendingFetches then
      { s with pendingFetches := s.pendingFetches.erase pair
               isSuggestionsLoading := false }
    else s

/-- Run a sequence of events from a state. -/
def suggestRun (oracle : ImageFile × ImageFile → List String)
    (s : SuggestState) (es : List SuggestEvent) : SuggestState :=
  es.foldl (suggestStep oracle) s

/-! ## Concrete fixtures (for witnesses and counterexamples) -/

/-- A concrete character file. -/
def demoCharFile : JSFile := { base64Data := "CHARDATA", type := "image/png" }

/-- A concrete product file. -/
def demoProdFile : JSFile := { base64Data := "PRODDATA", type := "image/jpeg" }

/-- A concrete uploaded character image. -/
def demoCharacter : ImageFile := { file := demoCharFile, previewUrl := "blob:char" }

/-- A concrete uploaded product image. -/
def demoProduct : ImageFile := { file := demoProdFile, previewUrl := "blob:prod" }

/-- A text-only content segment. -/
def demoTextPart : Part := { text := some "here is your image" }

/-- An image-bearing content segment (PNG). -/
def demoImagePart : Part := { inlineData := some { data := "IMGDATA", mimeType := "image/png" } }

/-- A second image-bearing content segment (JPEG), later in scan order. -/
def demoJpegPart : Part := { inlineData := some { data := "JPGDATA", mimeType := "image/jpeg" } }

/-- A trailing text segment. -/
def demoTrailingTextPart : Part := { text := some "done" }

/-- A blocked response that nevertheless carries an inline image part. -/
def blockedWithImage : GenerateContentResponse :=
  { promptFeedback := some { blockReason := some .SAFETY },
    candidates := some [{ content := some { parts := some [demoImagePart] },
                          finishReason := some "STOP" }],
    text := none }

/-- An unblocked response whose first image-bearing part is the PNG part,
followed by a JPEG part and trailing text. -/
def successResponse : GenerateContentResponse :=
  { promptFeedback := none,
    candidates := some [{ content := some
                            { parts := some [demoTextPart, demoImagePart,
                                             demoJpegPart, demoTrailingTextPart] },
                          finishReason := some "STOP" }],
    text := none }

/-- An unblocked response with only text parts. -/
def textOnlyResponse : GenerateContentResponse :=
  { promptFeedback := none,
    candidates := some [{ content := some { parts := some [demoTextPart] },
                          finishReason := some "STOP" }],
    text := none }

/-- An unblocked response whose first candidate has no content object. -/
def contentlessResponse : GenerateContentResponse :=
  { promptFeedback := none,
    candidates := some [{ content := none, finishReason := none }],
    text := none }

/-- A service stub returning the all-absent response. -/
def nullService : GenerateContentArgs → GenerateContentResponse := fun _ => {}

/-- A parser stub for which every body fails to parse. -/
def nullParse : String → Option Json := fun _ => none

/-! ## Helper lemmas on the part scan -/

/-- If no part carries inline data, the scan finds nothing. -/
theorem findInlineData_eq_none (ps : List Part) (h : ∀ q ∈ ps, q.inlineData = none) :
    findInlineData ps = none := by
  induction ps with
  | nil => rfl
  | cons p ps ih =>
    have hp := h p (List.mem_cons_self p ps)
    simp only [findInlineData, hp]
    exact ih fun q hq => h q (List.mem_cons_of_mem p hq)

/-- The scan returns the inline data of the first image-bearing part. -/
theorem findInlineData_append (pre post : List Part) (pm : Part) (d : InlineData)
    (hpre : ∀ q ∈ pre, q.inlineData = none) (hd : pm.inlineData = some d) :
    findInlineData (pre ++ pm :: post) = some d := by
  induction pre with
  | nil => simp only [List.nil_append, findInlineData, hd]
  | cons q qs ih =>
    have hq := hpre q (List.mem_cons_self q qs)
    simp only [List.cons_append, findInlineData, hq]
    exact ih fun x hx => hpre x (List.mem_cons_of_mem q hx)

/-- With neither block indicator present, interpretation reduces to the part
scan. -/
theorem interpretFusionResponse_no_block (r : GenerateContentResponse)
    (hb : promptBlockReason r = none) (hf : firstFinishReason r ≠ some "SAFETY") :
    interpretFusionResponse r =
      match findInlineData (fusionParts r) with
      | some d => .ok ("data:" ++ d.mimeType ++ ";base64," ++ d.data)
      | none => .error "No image was generated. The model may have refused the prompt." := by
  have hcond : ((promptBlockReason r).isSome || (firstFinishReason r == some "SAFETY"))
      = false := by
    simp only [hb, Option.isSome_none, Bool.false_or, beq_eq_false_iff_ne, ne_eq]
    exact hf
  unfold interpretFusionResponse
  rw [hcond]
  simp

/-! ## Claims about the fusion response interpretation -/

/-- Claim C4: whenever the top-level block-reason field is set or the first
candidate finishes with the safety indicator, the fusion call yields the
safety-blocked failure, regardless of any inline image data also present. -/
theorem fusion_block_yields_safety_error (r : GenerateContentResponse)
    (h : (promptBlockReason r).isSome = true ∨ firstFinishReason r = some "SAFETY") :
    interpretFusionResponse r = .error "SAFETY_POLICY_VIOLATION" := by
  have hcond : ((promptBlockReason r).isSome || (firstFinishReason r == some "SAFETY"))
      = true := by
    rcases h with h | h
    · simp [h]
    · simp [h]
  unfold interpretFusionResponse
  rw [hcond]
  simp

/-- Witness for C4: a concrete blocked response that also carries an inline
image part still yields the safety-blocked failure. -/
theorem fusion_block_yields_safety_error_witness :
    interpretFusionResponse blockedWithImage = .error "SAFETY_POLICY_VIOLATION" :=
  fusion_block_yields_safety_error blockedWithImage (Or.inl rfl)

/-- Claim C5: with no block indicators, the first image-bearing segment in
scan order determines the result: Success with a data URL whose media-type
prefix is exactly that segment\x27s declared media type; later segments and
trailing text are ignored. -/
theorem fusion_first_image_part_wins (r : GenerateContentResponse)
    (pre post : List Part) (pm : Part) (d : InlineData)
    (hb : promptBlockReason r = none)
    (hf : firstFinishReason r ≠ some "SAFETY")
    (hparts : fusionParts r = pre ++ pm :: post)
    (hpre : ∀ q ∈ pre, q.inlineData = none)
    (hd : pm.inlineData = some d) :
    interpretFusionResponse r = .ok ("data:" ++ d.mimeType ++ ";base64," ++ d.data) := by
  rw [interpretFusionResponse_no_block r hb hf, hparts,
    findInlineData_append pre post pm d hpre hd]

/-- Witness for C5: a concrete response holding text, a PNG part, a JPEG part
and trailing text yields the PNG data URL (first match wins). -/
theorem fusion_first_image_part_wins_witness :
    interpretFusionResponse successResponse = .ok "data:image/png;base64,IMGDATA" :=
  fusion_first_image_part_wins successResponse [demoTextPart]
    [demoJpegPart, demoTrailingTextPart] demoImagePart
    { data := "IMGDATA", mimeType := "image/png" }
    rfl (by decide) rfl (by decide) rfl

/-- Claim C6: with no block indicators and no image-bearing segment, the
fusion call yields the no-image-produced failure. -/
theorem fusion_no_image_part_yields_no_image_error (r : GenerateContentResponse)
    (hb : promptBlockReason r = none)
    (hf : firstFinishReason r ≠ some "SAFETY")
    (hno : ∀ q ∈ fusionParts r, q.inlineData = none) :
    interpretFusionResponse r
      = .error "No image was generated. The model may have refused the prompt." := by
  rw [interpretFusionResponse_no_block r hb hf, findInlineData_eq_none _ hno]

/-- Witness for C6: a concrete unblocked text-only response yields the
no-image-produced failure. -/
theorem fusion_no_image_part_yields_no_image_error_witness :
    interpretFusionResponse textOnlyResponse
      = .error "No image was generated. The model may have refused the prompt." :=
  fusion_no_image_part_yields_no_image_error textOnlyResponse rfl (by decide) (by decide)

/-- Claim C10: with no block indicators, a response whose candidate list is
absent or empty, or whose first candidate lacks a content object or a parts
list, yields the no-image-produced failure — the part scan is total over the
missing structure. -/
theorem fusion_missing_structure_yields_no_image_error (r : GenerateContentResponse)
    (hb : promptBlockReason r = none)
    (hf : firstFinishReason r ≠ some "SAFETY")
    (h : r.candidates = none ∨ r.candidates = some [] ∨
         ∃ c rest, r.candidates = some (c :: rest) ∧
           (c.content = none ∨ ∃ ct, c.content = some ct ∧ ct.parts = none)) :
    interpretFusionResponse r
      = .error "No image was generated. The model may have refused the prompt." := by
  have hparts : fusionParts r = [] := by
    unfold fusionParts
    rcases h with h | h | ⟨c, rest, hc, h⟩
    · rw [h]; rfl
    · rw [h]; rfl
    · rcases h with h | ⟨ct, hct, hp⟩
      · simp [hc, h]
      · simp [hc, hct, hp]
  rw [interpretFusionResponse_no_block r hb hf, hparts]
  rfl

/-- Witness for C10: a concrete response whose only candidate has no content
object yields the no-image-produced failure. -/
theorem fusion_missing_structure_yields_no_image_error_witness :
    interpretFusionResponse contentlessResponse
      = .error "No image was generated. The model may have refused the prompt." :=
  fusion_missing_structure_yields_no_image_error contentlessResponse rfl (by decide)
    (Or.inr (Or.inr ⟨_, _, rfl, Or.inl rfl⟩))

/-! ## Claims about the credential check and the generation gate -/

/-- Claim C7: with the API credential absent from the environment, both
service calls fail immediately with the configuration error and produce no
observable effect — no image encoding and no network dispatch. -/
theorem absent_credential_fails_without_effects (env : Env) (h : env.apiKey = none)
    (characterImageFile productImageFile : JSFile) (userPrompt : String)
    (service : GenerateContentArgs → GenerateContentResponse)
    (parse : String → Option Json) :
    generatePromptSuggestions env characterImageFile productImageFile service parse
      = (.error "API_KEY environment variable not set", []) ∧
    generateFusedImage env characterImageFile productImageFile userPrompt service
      = (.error "API_KEY environment variable not set", []) := by
  have ht : envApiKeyTruthy env = false := by
    simp [envApiKeyTruthy, h]
  refine ⟨?_, ?_⟩ <;> simp [generatePromptSuggestions, generateFusedImage, ht]

/-- Witness for C7: both calls at a concrete keyless environment fail with
the configuration error and an empty effect trace. -/
theorem absent_credential_fails_without_effects_witness :
    generatePromptSuggestions { apiKey := none } demoCharFile demoProdFile
        nullService nullParse
      = (.error "API_KEY environment variable not set", []) ∧
    generateFusedImage { apiKey := none } demoCharFile demoProdFile "" nullService
      = (.error "API_KEY environment variable not set", []) :=
  absent_credential_fails_without_effects { apiKey := none } rfl demoCharFile demoProdFile
    "" nullService nullParse

/-- Claim C8: `handleGenerate` dispatches a fusion request only when both
images are present; when either is missing it sets the validation error and
dispatches nothing. -/
theorem generate_requires_both_images (s : AppState) :
    ((handleGenerateStart s).2.isSome = true →
       s.characterImage.isSome = true ∧ s.productImage.isSome = true) ∧
    ((s.characterImage = none ∨ s.productImage = none) →
       (handleGenerateStart s).2 = none ∧
       (handleGenerateStart s).1.error = some missingImagesError) := by
  cases hc : s.characterImage <;> cases hp : s.productImage <;>
    simp [handleGenerateStart, hc, hp]

/-- Witness for C8: a concrete state missing the product image yields the
validation error and no dispatched request. -/
theorem generate_requires_both_images_witness :
    (handleGenerateStart { characterImage := some demoCharacter }).2 = none ∧
    (handleGenerateStart { characterImage := some demoCharacter }).1.error
      = some missingImagesError :=
  (generate_requires_both_images { characterImage := some demoCharacter }).2 (Or.inr rfl)

/-! ## Claims about the effective instruction and the aspect-ratio selection -/

/-- Claim C9: the instruction embedded in the fusion prompt is the user text
verbatim when that text is non-empty after trimming, else exactly the fixed
default instruction. -/
theorem fusion_effective_instruction (characterImageFile productImageFile : JSFile)
    (userPrompt : String) :
    (buildFusionRequest characterImageFile productImageFile userPrompt).parts =
      [ .inlineData (fileToBase64 characterImageFile) characterImageFile.type
      , .inlineData (fileToBase64 productImageFile) productImageFile.type
      , .text (fusionPromptTemplate (effectiveInstruction userPrompt)) ] ∧
    (jsTrim userPrompt ≠ "" → effectiveInstruction userPrompt = userPrompt) ∧
    (jsTrim userPrompt = "" → effectiveInstruction userPrompt = defaultInstruction) := by
  refine ⟨rfl, ?_, ?_⟩
  · intro h
    have hne : userPrompt ≠ "" := by
      intro he
      apply h
      rw [he]
      rfl
    unfold effectiveInstruction
    rw [if_pos ⟨hne, h⟩]
  · intro h
    unfold effectiveInstruction
    rw [if_neg (fun hc => hc.2 h)]

/-- Witness for C9: a concrete non-empty instruction is kept verbatim, and a
whitespace-only instruction falls back to the fixed default. -/
theorem fusion_effective_instruction_witness :
    effectiveInstruction "Make the character wear the item"
      = "Make the character wear the item" ∧
    effectiveInstruction "   " = defaultInstruction :=
  ⟨(fusion_effective_instruction demoCharFile demoProdFile
      "Make the character wear the item").2.1 (by decide),
   (fusion_effective_instruction demoCharFile demoProdFile "   ").2.2 (by decide)⟩

/-- A generate-ready App state carrying the instruction
"Make the character wear the item" and the given aspect-ratio selection. -/
def wearItemState (ratio : String) : AppState :=
  { characterImage := some demoCharacter,
    productImage := some demoProduct,
    prompt := "Make the character wear the item",
    outputAspectRatio := ratio }

/-- Claim C1 (failing input evaluated on the code): with the user instruction
"Make the character wear the item", the request dispatched for the "1:1"
aspect-ratio selection is identical to the one dispatched for "original" —
`generateFusedImage` declares no aspect-ratio parameter, the fourth argument
passed at the call site is dropped, and no override clause is ever appended
to the prompt. -/
theorem fusionRequest_independent_of_aspect_ratio :
    (handleGenerateStart (wearItemState "1:1")).2
      = (handleGenerateStart (wearItemState "original")).2 ∧
    (handleGenerateStart (wearItemState "1:1")).2
      = some (buildFusionRequest demoCharFile demoProdFile
          "Make the character wear the item") :=
  ⟨rfl, rfl⟩

/-! ## Claims about the suggestion interpretation -/

/-- A service stub whose response body is not valid JSON. -/
def unparseableBodyService : GenerateContentArgs → GenerateContentResponse := fun _ =>
  { text := some "not valid json" }

/-- A service stub whose response body is the empty JSON object. -/
def emptyObjectBodyService : GenerateContentArgs → GenerateContentResponse := fun _ =>
  { text := some "\x7b\x7d" }

/-- A parser stub under which every body parses to the empty JSON object. -/
def emptyObjectParse : String → Option Json := fun _ => some (Json.obj [])

/-- Counterexample to claim C2: with the credential present and a service
response whose body fails to parse as JSON (a malformed, non-transport
response), `generatePromptSuggestions` raises — `JSON.parse` throws and the
exception propagates — instead of returning the empty list. -/
theorem suggestions_raise_on_unparseable_body :
    (generatePromptSuggestions { apiKey := some "test-key" } demoCharFile demoProdFile
        unparseableBodyService nullParse).1
      = .error "SyntaxError: Unexpected token in JSON" ∧
    (generatePromptSuggestions { apiKey := some "test-key" } demoCharFile demoProdFile
        unparseableBodyService nullParse).1.isOk = false :=
  ⟨rfl, rfl⟩

/-- Claim C2 as amended: when the response body parses to a JSON object that
lacks the `suggestions` field, `generatePromptSuggestions` returns the empty
list rather than throwing; a body that fails to parse as JSON, however, makes
it raise. -/
theorem suggestions_missing_field_yields_empty (env : Env)
    (henv : envApiKeyTruthy env = true)
    (characterImageFile productImageFile : JSFile)
    (service : GenerateContentArgs → GenerateContentResponse)
    (parse : String → Option Json) (body : String) (fields : List (String × Json))
    (hbody : (service (buildSuggestionRequest characterImageFile productImageFile)).text
      = some body)
    (hparse : parse body = some (Json.obj fields))
    (habsent : fields.lookup "suggestions" = none) :
    (generatePromptSuggestions env characterImageFile productImageFile service parse).1
      = .ok (Json.arr []) := by
  unfold generatePromptSuggestions
  rw [henv]
  simp only [if_true]
  rw [hbody]
  simp only [hparse, interpretSuggestions, habsent]

/-- Witness for the amended C2: a concrete empty-object body yields the empty
suggestion list. -/
theorem suggestions_missing_field_yields_empty_witness :
    (generatePromptSuggestions { apiKey := some "test-key" } demoCharFile demoProdFile
        emptyObjectBodyService emptyObjectParse).1 = .ok (Json.arr []) :=
  suggestions_missing_field_yields_empty { apiKey := some "test-key" } rfl
    demoCharFile demoProdFile emptyObjectBodyService emptyObjectParse
    "\x7b\x7d" [] rfl rfl rfl

/-! ## Claims about the suggestion-fetch race -/

/-- A second concrete character image, used to replace the first one. -/
def demoCharacterB : ImageFile :=
  { file := { base64Data := "CHARDATA2", type := "image/png" }, previewUrl := "blob:char2" }

/-- A concrete suggestion oracle distinguishing the image pairs. -/
def pairOracle : ImageFile × ImageFile → List String := fun pair =>
  ["combine " ++ pair.1.file.base64Data ++ " with " ++ pair.2.file.base64Data]

/-- The interleaving in which the stale fetch resolves last: upload both
images (starting a fetch for the old pair), replace the character image
(starting a fetch for the new pair), then let the new fetch resolve before
the old one. -/
def staleWinTrace : List SuggestEvent :=
  [ .setCharacter demoCharacter
  , .setProduct demoProduct
  , .setCharacter demoCharacterB
  , .resolveFetch (demoCharacterB, demoProduct)
  , .resolveFetch (demoCharacter, demoProduct) ]

/-- Counterexample to claim C3: the effect installs no race guard, so in the
interleaving where the stale fetch for the replaced pair resolves after the
fetch for the newest pair, its result is applied, and the final suggestion
state holds the old pair\x27s suggestions while the state images are the new
pair. -/
theorem stale_suggestion_fetch_overwrites :
    (suggestRun pairOracle {} staleWinTrace).characterImage = some demoCharacterB ∧
    (suggestRun pairOracle {} staleWinTrace).productImage = some demoProduct ∧
    (suggestRun pairOracle {} staleWinTrace).pendingFetches = [] ∧
    (suggestRun pairOracle {} staleWinTrace).dynamicSuggestions
      = pairOracle (demoCharacter, demoProduct) ∧
    pairOracle (demoCharacter, demoProduct) ≠ pairOracle (demoCharacterB, demoProduct) := by
  refine ⟨rfl, rfl, ?_, ?_, ?_⟩ <;> decide

/-- Claim C3 as amended: replacing an image clears the suggestion list and
starts a fresh fetch, but the pending fetch\x27s eventual result is not
discarded — the final suggestion state reflects whichever fetch resolves
last.  In particular the final state reflects the newest pair exactly when
the stale fetch resolves before the newest one, and reflects the stale pair
when it resolves after. -/
theorem suggestion_last_resolution_wins
    (oracle : ImageFile × ImageFile → List String) (c₁ c₂ p : ImageFile) :
    (suggestRun oracle {}
      [ .setCharacter c₁, .setProduct p, .setCharacter c₂,
        .resolveFetch (c₁, p), .resolveFetch (c₂, p) ]).dynamicSuggestions
      = oracle (c₂, p) ∧
    (suggestRun oracle {}
      [ .setCharacter c₁, .setProduct p, .setCharacter c₂,
        .resolveFetch (c₂, p), .resolveFetch (c₁, p) ]).dynamicSuggestions
      = oracle (c₁, p) := by
  constructor
  · simp only [suggestRun, List.foldl, suggestStep, runSuggestionEffect]
    simp [List.erase_cons]
  · simp only [suggestRun, List.foldl, suggestStep, runSuggestionEffect]
    by_cases hc : (c₁, p) = (c₂, p)
    · simp [hc, List.erase_cons]
    · simp [List.erase_cons, hc, Ne.symm hc]

end PPF
